import Mathlib

/-!
Verification of the tiws WebSocket client core (src/utils.js, src/sender.js,
src/constants.js, src/websocket.js) against its natural-language specification.

Modelling conventions:
* A JS `Buffer` is a `List Nat` whose elements are byte values; every store
  into a buffer truncates with `% 256`, matching `Uint8Array` assignment.
* Out-of-bounds buffer reads yield `undefined`, which the bitwise operators
  coerce to `0`; reads are therefore modelled with `List.getD _ _ 0`.
  A second, bounds-checked decoder (`parseDataFrameChecked`) models the same
  algorithm in a total embedding where an out-of-bounds access is an error.
* The engine is single-threaded and callback driven; socket-write completion
  callbacks are modelled as running immediately after the write is recorded.
* Strings crossing the byte boundary (close reasons, error messages) are
  carried as their UTF-8 bytes.
-/

deriving instance DecidableEq for Except

namespace Tiws

/-- UTF-8 bytes of a string, used for close reasons and error messages.
Every string crossing the byte boundary in this code base is ASCII, for
which the UTF-8 bytes are exactly the character code points. -/
def strBytes (s : String) : List Nat := s.data.map Char.toNat

/-! ## Masking utility (utils.js `applyMask`)

`applyMask(source, mask, output, offset, length)` runs
`output[offset + i] = source[i] ^ mask[i & 3]` for `i = 0 .. length - 1`.
The sender always calls it with `offset = 0` and `length = source.length`,
either conceptually with a fresh output (`applyMaskGo`, reading an unchanging
source) or literally with `output === source` (`applyMaskInPlaceGo`, reading
the buffer being written). -/

/-- One pass of `applyMask` into a fresh output buffer, starting at index `i`. -/
def applyMaskGo (mask : List Nat) : Nat → List Nat → List Nat
  | _, [] => []
  | i, b :: rest => ((b ^^^ mask.getD (i &&& 3) 0) % 256) :: applyMaskGo mask (i + 1) rest

/-- `applyMask(data, key, fresh, 0, data.length)`: XOR-mask `data` against the
4-byte `mask`, byte `i` against `mask[i & 3]`. -/
def applyMask (source mask : List Nat) : List Nat := applyMaskGo mask 0 source

/-- The loop of `applyMask(data, mask, data, 0, data.length)` where the output
buffer is the source buffer itself: at step `i` (with `n` iterations left) the
byte at position `i` of the evolving buffer is read and overwritten. -/
def applyMaskInPlaceGo (mask : List Nat) : Nat → Nat → List Nat → List Nat
  | _, 0, buf => buf
  | i, n + 1, buf =>
      applyMaskInPlaceGo mask (i + 1) n (buf.set i ((buf.getD i 0 ^^^ mask.getD (i &&& 3) 0) % 256))

/-- The sender's call `applyMask(data, mask, data, 0, data.length)`: the
contents of `data` after the in-place masking loop. -/
def applyMaskInPlace (data mask : List Nat) : List Nat :=
  applyMaskInPlaceGo mask 0 data.length data

/-! ## Frame encoding (sender.js `createFrameBuffer`) -/

/-- `writeUInt16BE`: the two big-endian bytes of a 16-bit value (byte stores
truncate with `% 256`). -/
def u16be (n : Nat) : List Nat := [(n >>> 8) % 256, n % 256]

/-- `writeUInt32BE`: the four big-endian bytes of a 32-bit value. -/
def u32be (n : Nat) : List Nat :=
  [(n >>> 24) % 256, (n >>> 16) % 256, (n >>> 8) % 256, n % 256]

/-- Result of `createFrameBuffer`: the wire frame returned, and the contents of
the caller-supplied `data` buffer after the call (the payload is masked in
place, so the caller's buffer is mutated). -/
structure EncodeResult where
  frame : List Nat
  dataAfter : List Nat
  deriving DecidableEq

/-- `Sender.createFrameBuffer({data, opcode, fin, rsv1})` with mask key `mask`
(the module-level 4-byte buffer, freshly refilled by `randomFillSync` before
each frame; the key value is a parameter here since its bytes are random).
Layout: 2 header bytes, optional extended length, 4 mask-key bytes, then the
payload — which is masked in place in the caller's buffer. -/
def createFrameBuffer (data : List Nat) (opcode : Nat) (fin rsv1 : Bool)
    (mask : List Nat) : EncodeResult :=
  let payloadLength := if 65536 ≤ data.length then 127
    else if 125 < data.length then 126 else data.length
  let b0a := (if fin then opcode ||| 0x80 else opcode) % 256
  let b0 := if rsv1 then (b0a ||| 0x40) % 256 else b0a
  let b1 := (payloadLength % 256 ||| 0x80) % 256
  let ext := if payloadLength = 126 then u16be data.length
    else if payloadLength = 127 then u32be 0 ++ u32be data.length else []
  let maskBytes := [mask.getD 0 0 % 256, mask.getD 1 0 % 256,
    mask.getD 2 0 % 256, mask.getD 3 0 % 256]
  let masked := applyMaskInPlace data mask
  ⟨[b0, b1] ++ ext ++ maskBytes ++ masked, masked⟩

/-! ## Frame decoding (websocket.js `processDataFrame`, header part) -/

/-- Failure modes of the header parse: `maskedFrame` and `fragmentedControl`
lead to `disconnectAndEmitError`, `unsupportedLen64` is a thrown `Error`;
`outOfBounds` is produced only by the bounds-checked variant. -/
inductive DecErr where
  | maskedFrame | fragmentedControl | unsupportedLen64 | outOfBounds
  deriving DecidableEq

/-- The values `processDataFrame` extracts from the buffer before the
response bookkeeping: FIN flag, opcode, declared payload length, offset of the
payload data, the (possibly clamped, possibly negative) number of payload
bytes taken from this buffer, and the `data` buffer copied out. -/
structure ParsedFrame where
  isFin : Bool
  opcode : Nat
  payloadDataLength : Nat
  payloadDataOffset : Nat
  framePayloadDataLength : Int
  dataBytes : List Nat
  deriving DecidableEq

/-- `buffer.copy(data, 0, offset, offset + len)` into `data = Buffer.alloc(len)`:
bytes `offset ..` of `buffer` are copied as far as they exist, the rest of
`data` keeps its zero fill. -/
def bufCopyRead (buffer : List Nat) (offset len : Nat) : List Nat :=
  let copied := (buffer.drop offset).take len
  copied ++ List.replicate (len - copied.length) 0

/-- Header-and-payload extraction of `processDataFrame` (websocket.js lines
386-418 and the `data` copy): reads the FIN/opcode/MASK/length fields, rejects
masked frames and fragmented control frames, reads the 16-bit extended length
when the 7-bit field is 126 (indices 2 and 3, unguarded: an out-of-range read
yields `undefined`, coerced to 0 by `<<` and `&`), and fails on the
unsupported 64-bit length marker 127. -/
def parseDataFrame (buffer : List Nat) : Except DecErr ParsedFrame :=
  let bufferLength := buffer.length
  let isFin : Bool := buffer.getD 0 0 &&& 0x80 ≠ 0
  let opcode := buffer.getD 0 0 &&& 0x0F
  let isMasked : Bool := buffer.getD 1 0 &&& 0x80 ≠ 0
  let payloadLength := buffer.getD 1 0 &&& 0x7F
  if isMasked then .error .maskedFrame
  else if (opcode = 8 ∨ opcode = 9) ∧ isFin = false then .error .fragmentedControl
  else if payloadLength = 126 then
    let payloadDataLength := buffer.getD 2 0 <<< 8 ||| (buffer.getD 3 0 &&& 0xffff)
    let framePayloadDataLength : Int :=
      if bufferLength < payloadDataLength then (bufferLength : Int) - 4 else payloadDataLength
    .ok ⟨isFin, opcode, payloadDataLength, 4, framePayloadDataLength,
      bufCopyRead buffer 4 payloadDataLength⟩
  else if payloadLength = 127 then .error .unsupportedLen64
  else
    let framePayloadDataLength : Int :=
      if bufferLength < payloadLength then (bufferLength : Int) - 2 else payloadLength
    .ok ⟨isFin, opcode, payloadLength, 2, framePayloadDataLength,
      bufCopyRead buffer 2 payloadLength⟩

/-- The same parse in a total embedding where every direct index access
`buffer[i]` must be in bounds: `buffer[0]`/`buffer[1]` for the header fields
and, when the 7-bit length field is 126, `buffer[2]`/`buffer[3]` for the
extended length; an out-of-range access is an `outOfBounds` error instead of
JS's `undefined`-to-0 coercion. -/
def parseDataFrameChecked (buffer : List Nat) : Except DecErr ParsedFrame :=
  match buffer[0]?, buffer[1]? with
  | some h0, some h1 =>
    let bufferLength := buffer.length
    let isFin : Bool := h0 &&& 0x80 ≠ 0
    let opcode := h0 &&& 0x0F
    let isMasked : Bool := h1 &&& 0x80 ≠ 0
    let payloadLength := h1 &&& 0x7F
    if isMasked then .error .maskedFrame
    else if (opcode = 8 ∨ opcode = 9) ∧ isFin = false then .error .fragmentedControl
    else if payloadLength = 126 then
      match buffer[2]?, buffer[3]? with
      | some e0, some e1 =>
        let payloadDataLength := e0 <<< 8 ||| (e1 &&& 0xffff)
        let framePayloadDataLength : Int :=
          if bufferLength < payloadDataLength then (bufferLength : Int) - 4
          else payloadDataLength
        .ok ⟨isFin, opcode, payloadDataLength, 4, framePayloadDataLength,
          bufCopyRead buffer 4 payloadDataLength⟩
      | _, _ => .error .outOfBounds
    else if payloadLength = 127 then .error .unsupportedLen64
    else
      let framePayloadDataLength : Int :=
        if bufferLength < payloadLength then (bufferLength : Int) - 2 else payloadLength
      .ok ⟨isFin, opcode, payloadLength, 2, framePayloadDataLength,
        bufCopyRead buffer 2 payloadLength⟩
  | _, _ => .error .outOfBounds

/-! ## Connection state machine (websocket.js `WebSocket`) -/

/-- The errors `disconnectAndEmitError` is called with (their `message`
strings become close reasons), plus the transport error surfaced by the
socket's `error` callback. -/
inductive ErrTag where
  | maskedData | fragmentedControl | notContinue | socketError
  deriving DecidableEq

/-- `message` of each error value. -/
def errText : ErrTag → List Nat
  | .maskedData => strBytes "Received masked data from server"
  | .fragmentedControl => strBytes "Control frames can\x27t be fragmented."
  | .notContinue => strBytes "A frame after a fragmeneted message must be a continue frame."
  | .socketError => strBytes "transport error"

/-- Events the WebSocket raises (`emitEvent` / `emit`). `evMessage true d` is
a text message (`d` the UTF-8 bytes of the string), `evMessage false d` a
binary one. -/
inductive WsEvent where
  | evOpen
  | evError (tag : ErrTag)
  | evClose (code : Nat) (reason : List Nat)
  | evMessage (isText : Bool) (data : List Nat)
  | evPing (data : List Nat)
  deriving DecidableEq

/-- A frame handed to the transport by `Sender.sendFrame`, recorded with its
pre-masking payload; the wire bytes are `createFrameBuffer` of these fields. -/
structure OutFrame where
  opcode : Nat
  payload : List Nat
  fin : Bool
  deriving DecidableEq

/-- `WebSocketResponse`: per-message reassembly state. `buffer` starts as
`null` in the source but is always assigned before being read, so it is
modelled as a list from the start. -/
structure WsResponse where
  isFin : Bool := false
  opcode : Nat := 0
  bytesLeft : Int := 0
  frameCount : Nat := 0
  buffer : List Nat := []
  deriving DecidableEq

/-- Connection state. `handshakeClosed` records that the `closeSocket` closure
inside `close()` ran (the close-handshake teardown: `socket.close()` followed
by `emitClose(code, reason)`), as opposed to teardown via `abortHandshake` or
the transport-EOF path. -/
structure WsState where
  readyState : Nat
  closeFrameSent : Bool
  closeFrameReceived : Bool
  responseStack : List WsResponse
  socketConnected : Bool
  socketClosed : Bool
  handshakeClosed : Bool
  events : List WsEvent
  sentFrames : List OutFrame
  deriving DecidableEq

/-- Exceptions that propagate out of the engine (JS `throw`s, plus the
runtime `TypeError`s the code can hit). `notOpen` is the
`WebSocket is not open: readyState 0 (CONNECTING)` throw of `pong`;
`fuelOut` is an artefact of the fuel-bounded loop and is unreachable for the
fuel the callers supply. -/
inductive JsErr where
  | unsupportedLen64
  | invalidClosePayload
  | typeError
  | fragmentedData
  | negAlloc
  | rangeErr
  | notOpen
  | fuelOut
  deriving DecidableEq

/-- A JS value as it flows through `processDataFramesInBuffer`'s loop
variable: the delivered buffer, the number returned by `buffer.copy`, or
`undefined` returned through `disconnectAndEmitError`. -/
inductive JsVal where
  | undef
  | num (n : Nat)
  | buf (l : List Nat)
  deriving DecidableEq

/-- `emitClose(code = 1006, message = '')`: set `readyState` to CLOSED and
emit the `close` event. -/
def emitClose (ws : WsState) (code : Option Nat) (reason : Option (List Nat)) : WsState :=
  { ws with readyState := 3,
            events := ws.events ++ [.evClose (code.getD 1006) (reason.getD [])] }

/-- The `closeSocket` closure inside `close(code, reason)`:
`this.socket.close(); this.emitClose(code, reason)`. -/
def closeSocket (ws : WsState) (code : Option Nat) (reason : Option (List Nat)) : WsState :=
  emitClose { ws with socketConnected := false, socketClosed := true,
                      handshakeClosed := true } code reason

/-- `abortHandshake(webSocket, msg)`: CLOSING, close the socket if it is
connected, then `emitClose(1006, msg)`. -/
def abortHandshake (ws : WsState) (msg : List Nat) : WsState :=
  let ws := { ws with readyState := 2 }
  let ws := if ws.socketConnected
    then { ws with socketConnected := false, socketClosed := true } else ws
  emitClose ws (some 1006) (some msg)

/-- `Sender.close(code, reason, cb)` payload construction: no code → empty
payload; a code ≥ 2^16 makes `writeUInt16BE` throw a `RangeError`; an absent
or empty reason → just the 2 code bytes; otherwise code bytes then the
reason's UTF-8 bytes. -/
def closePayload (code : Option Nat) (reason : Option (List Nat)) : Except JsErr (List Nat) :=
  match code with
  | none => .ok []
  | some c =>
    if 65536 ≤ c then .error .rangeErr
    else match reason with
      | none => .ok (u16be c)
      | some r => if r = [] then .ok (u16be c) else .ok (u16be c ++ r)

/-- `WebSocket.close(code, reason)`. In the OPEN branch the close frame is
handed to the transport and its write-completion callback (which marks
`closeFrameSent` and, if the remote close frame already arrived, runs
`closeSocket`) is modelled as running immediately. -/
def wsClose (ws : WsState) (code : Option Nat) (reason : Option (List Nat)) :
    WsState × Option JsErr :=
  if ws.readyState = 3 then (ws, none)
  else if ws.readyState = 0 then
    (abortHandshake ws (strBytes "WebSocket was closed before the connection was established"),
      none)
  else if ws.readyState = 2 then
    if ws.closeFrameSent && ws.closeFrameReceived then (closeSocket ws code reason, none)
    else (ws, none)
  else
    let ws := { ws with readyState := 2 }
    match closePayload code reason with
    | .error e => (ws, some e)
    | .ok payload =>
      let ws := { ws with sentFrames := ws.sentFrames ++ [⟨0x8, payload, true⟩],
                          closeFrameSent := true }
      if ws.closeFrameReceived then (closeSocket ws code reason, none) else (ws, none)

/-- `disconnectAndEmitError(error, closeCode)`: emit the `error` event, then
`close(closeCode || 1006, error.message)`. -/
def disconnectAndEmitError (ws : WsState) (tag : ErrTag) (closeCode : Option Nat) :
    WsState × Option JsErr :=
  wsClose { ws with events := ws.events ++ [.evError tag] }
    (some (closeCode.getD 1006)) (some (errText tag))

/-- `this.pong(data, !this.isServer, NOOP)` as called from `processResponse`.
While CONNECTING, `pong` throws its not-open error (unreachable from frame
processing). When OPEN, `Sender.pong(data, cb)` receives the mask boolean
`true` in its `cb` parameter (the 2-parameter method is called with 3
arguments), so after the pong frame is written the completion callback
evaluates `cb()` on the boolean — a `TypeError`. Otherwise `sendAfterClose`
invokes the `NOOP` callback with an error and nothing else happens. -/
def wsPongFromPing (ws : WsState) (data : List Nat) : WsState × Option JsErr :=
  if ws.readyState = 0 then (ws, some .notOpen)
  else if ws.readyState = 1 then
    ({ ws with sentFrames := ws.sentFrames ++ [⟨0xA, data, true⟩] }, some .typeError)
  else (ws, none)

/-- The close-frame payload interpretation inside `processResponse`
(websocket.js lines 463-475): empty payload → the no-status code 1005 with
the default reason; a 1-byte payload → `RangeError('Invalid payload length 1')`;
otherwise `readUInt16BE(0)` and the remaining bytes as the reason. -/
def parseClosePayload (data : List Nat) : Except JsErr (Nat × List Nat) :=
  if data.length = 0 then .ok (1005, strBytes "connection closed by server")
  else if data.length = 1 then .error .invalidClosePayload
  else .ok (data.getD 0 0 <<< 8 ||| data.getD 1 0, data.drop 2)

/-- The close-frame branch of `processResponse`: parse the payload, mark
`closeFrameReceived`, then `close()` with no arguments when the code is the
no-status 1005 and `close(code, reason)` otherwise. -/
def processCloseFrame (ws : WsState) (data : List Nat) : WsState × Option JsErr :=
  match parseClosePayload data with
  | .error e => (ws, some e)
  | .ok (closeCode, closeReason) =>
    let ws := { ws with closeFrameReceived := true }
    if closeCode = 1005 then wsClose ws none none
    else wsClose ws (some closeCode) (some closeReason)

/-- The opcode dispatch inside `processResponse`'s completed-message branch:
ping → pong + `ping` event, close → `processCloseFrame`, text/binary →
`message` event, any other opcode → nothing. -/
def dispatchResponse (ws : WsState) (r : WsResponse) : WsState × Option JsErr :=
  if r.opcode = 0x9 then
    match wsPongFromPing ws r.buffer with
    | (ws, some e) => (ws, some e)
    | (ws, none) => ({ ws with events := ws.events ++ [.evPing r.buffer] }, none)
  else if r.opcode = 0x8 then processCloseFrame ws r.buffer
  else if r.opcode = 0x1 then
    ({ ws with events := ws.events ++ [.evMessage true r.buffer] }, none)
  else if r.opcode = 0x2 then
    ({ ws with events := ws.events ++ [.evMessage false r.buffer] }, none)
  else (ws, none)

/-- `WebSocket.processResponse(response)`: when the message is complete
(`isFin` and no bytes left) run the opcode dispatch and pop the response
stack (a thrown error skips the pop). -/
def processResponse (ws : WsState) (r : WsResponse) : WsState × Option JsErr :=
  if r.isFin = true ∧ r.bytesLeft ≤ 0 then
    match dispatchResponse ws r with
    | (ws, some e) => (ws, some e)
    | (ws, none) => ({ ws with responseStack := ws.responseStack.dropLast }, none)
  else (ws, none)

/-- Tail of `processDataFrame` (websocket.js lines 436-448) for a response
`r` that is being created (`isNew`) or was the open one: update its counters
and FIN flag, push it or replace the stack top, run `processResponse`, then
build `nextFrame` — `Buffer.alloc` of a negative length throws — and return
the value of `buffer.copy(nextFrame, 0, nextFrameOffset)`, which is the
*number of bytes copied*, not the buffer. -/
def finishFrame (ws : WsState) (buffer : List Nat) (pf : ParsedFrame)
    (r : WsResponse) (isNew : Bool) : WsState × Option JsErr × JsVal :=
  let r := { r with bytesLeft := r.bytesLeft - pf.framePayloadDataLength,
                    frameCount := r.frameCount + 1, isFin := pf.isFin }
  let ws := if isNew then { ws with responseStack := ws.responseStack ++ [r] }
    else { ws with responseStack := ws.responseStack.dropLast ++ [r] }
  match processResponse ws r with
  | (ws, some e) => (ws, some e, .undef)
  | (ws, none) =>
    let nextFrameOffset : Int := (pf.payloadDataOffset : Int) + pf.framePayloadDataLength
    let nextFrameLength : Int := (buffer.length : Int) - nextFrameOffset
    if nextFrameLength < 0 then (ws, some .negAlloc, .undef)
    else (ws, none, .num nextFrameLength.toNat)

/-- The response bookkeeping of `processDataFrame` once the header parsed:
create a fresh response when none is open, extend the open one on a
continuation frame, and on any other opcode while one is open call
`disconnectAndEmitError` *without returning* — the processing continues and
the frame's payload is still appended. -/
def handleParsedFrame (ws : WsState) (buffer : List Nat) (pf : ParsedFrame) :
    WsState × Option JsErr × JsVal :=
  match ws.responseStack.getLast? with
  | none =>
    finishFrame ws buffer pf
      { isFin := false, opcode := pf.opcode, bytesLeft := (pf.payloadDataLength : Int),
        frameCount := 0, buffer := pf.dataBytes } true
  | some r0 =>
    if pf.opcode = 0 then
      finishFrame ws buffer pf
        { r0 with bytesLeft := (pf.payloadDataLength : Int),
                  buffer := r0.buffer ++ pf.dataBytes } false
    else
      match disconnectAndEmitError ws .notContinue none with
      | (ws, some e) => (ws, some e, .undef)
      | (ws, none) =>
        finishFrame ws buffer pf { r0 with buffer := r0.buffer ++ pf.dataBytes } false

/-- `WebSocket.processDataFrame(buffer)`. A masked frame or a fragmented
control frame returns the (undefined) result of `disconnectAndEmitError`; the
64-bit length marker throws; otherwise the parsed frame is folded into the
response stack. -/
def processDataFrame (ws : WsState) (buffer : List Nat) : WsState × Option JsErr × JsVal :=
  match parseDataFrame buffer with
  | .error .maskedFrame =>
    let out := disconnectAndEmitError ws .maskedData (some 1002)
    (out.1, out.2, .undef)
  | .error .fragmentedControl =>
    let out := disconnectAndEmitError ws .fragmentedControl (some 1002)
    (out.1, out.2, .undef)
  | .error _ => (ws, some .unsupportedLen64, .undef)
  | .ok pf => handleParsedFrame ws buffer pf

/-- `buffer.length >= 2` on the loop variable: a number has no `length`
property (`undefined >= 2` is `false`), and reading `length` of `undefined`
throws a `TypeError`. -/
def jsLenGe2 : JsVal → Except JsErr Bool
  | .buf l => .ok (decide (2 ≤ l.length))
  | .num _ => .ok false
  | .undef => .error .typeError

/-- `buffer.length > 0` on the loop variable, same coercion rules. -/
def jsLenGt0 : JsVal → Except JsErr Bool
  | .buf l => .ok (decide (0 < l.length))
  | .num _ => .ok false
  | .undef => .error .typeError

/-- The `if (buffer.length > 0) throw new Error('Fragmented data in buffer
which cannot be processed')` check after the loop. -/
def pdfLeftover (ws : WsState) (v : JsVal) : WsState × Option JsErr :=
  match jsLenGt0 v with
  | .error e => (ws, some e)
  | .ok true => (ws, some .fragmentedData)
  | .ok false => (ws, none)

/-- The `while (buffer.length >= 2) buffer = this.processDataFrame(buffer)`
loop of `processDataFramesInBuffer`, followed by the leftover check, with
explicit fuel (the callers pass more fuel than the loop can consume). -/
def pdfLoop : Nat → WsState → JsVal → WsState × Option JsErr
  | 0, ws, _ => (ws, some .fuelOut)
  | fuel + 1, ws, v =>
    match jsLenGe2 v with
    | .error e => (ws, some e)
    | .ok false => pdfLeftover ws v
    | .ok true =>
      match v with
      | .buf l =>
        match processDataFrame ws l with
        | (ws, some e, _) => (ws, some e)
        | (ws, none, v) => pdfLoop fuel ws v
      | .num n => (ws, some .fuelOut)
      | .undef => (ws, some .fuelOut)

/-- `WebSocket.processDataFramesInBuffer(buffer)`. -/
def processDataFramesInBuffer (ws : WsState) (buffer : List Nat) : WsState × Option JsErr :=
  pdfLoop (buffer.length + 1) ws (.buf buffer)

/-- Outcome of validating the handshake response. The HTTP parsing of
`processHandshake` (status-line scan and `Sec-WebSocket-Accept` comparison)
is abstracted into this three-way outcome; its state effects are modelled
faithfully. -/
inductive HsOutcome where
  | accepted | badStatus | badAccept
  deriving DecidableEq

/-- `WebSocket.processHandshake(buffer)`: bad status line or accept-hash
mismatch abort the handshake; otherwise OPEN and the `open` event. -/
def processHandshake (ws : WsState) : HsOutcome → WsState
  | .badStatus =>
    abortHandshake ws (strBytes "Invalid HTTP status code received during WebSocket hanshake.")
  | .badAccept => abortHandshake ws (strBytes "Invalid Sec-WebSocket-Accept header")
  | .accepted => { ws with readyState := 1, events := ws.events ++ [.evOpen] }

/-- `WebSocket.socketOnClose()`: CLOSING, drop the socket, `emitClose()`. -/
def socketOnClose (ws : WsState) : WsState :=
  emitClose { ws with readyState := 2, socketConnected := false } none none

/-- The operations that drive the connection object: the pump callback with
`bytesProcessed === -1` (transport EOF), the socket `error` callback, a
delivered byte chunk (routed to the handshake validator while CONNECTING and
to the reassembly engine otherwise, as in `processInputStream`), and an
application call to `close(code, reason)`. -/
inductive WsOp where
  | transportEof
  | socketError
  | deliver (hs : HsOutcome) (buffer : List Nat)
  | callClose (code : Option Nat) (reason : Option (List Nat))
  deriving DecidableEq

/-- One externally triggered step of the connection object. Exceptions
propagate to the event loop (or the `close` caller); the object survives
them. -/
def step (ws : WsState) : WsOp → WsState × Option JsErr
  | .transportEof => if ws.readyState = 3 then (ws, none) else (socketOnClose ws, none)
  | .socketError =>
    ({ ws with readyState := 3, events := ws.events ++ [.evError .socketError] }, none)
  | .deliver hs buffer =>
    if ws.readyState = 0 then (processHandshake ws hs, none)
    else processDataFramesInBuffer ws buffer
  | .callClose code reason => wsClose ws code reason

/-- Run a sequence of operations, keeping the state reached even when a step
ends in a propagated exception. -/
def run (ws : WsState) : List WsOp → WsState
  | [] => ws
  | op :: ops => run (step ws op).1 ops

/-- A freshly constructed `WebSocket` right after `connect()` succeeded:
CONNECTING, no close frames exchanged, empty response stack. -/
def initState : WsState :=
  { readyState := 0, closeFrameSent := false, closeFrameReceived := false,
    responseStack := [], socketConnected := true, socketClosed := false,
    handshakeClosed := false, events := [], sentFrames := [] }

/-- The state right after a successful handshake: OPEN. -/
def initOpen : WsState := { initState with readyState := 1 }

/-- What a conforming server does to a client frame before interpreting it:
clear the MASK bit of header byte 1, drop the 4 mask-key bytes (`hdrLen` is
the length of the header including the key), and XOR the payload with the
key. Used to state the round-trip property of the codec, whose own decoder
accepts only unmasked (server-originated) frames. -/
def unmaskFrame (f : List Nat) (hdrLen : Nat) (key : List Nat) : List Nat :=
  (f.take (hdrLen - 4)).set 1 (f.getD 1 0 % 128) ++ applyMask (f.drop hdrLen) key

/-- The operations involved in the close handshake: application calls to
`close` and delivered byte chunks (which may carry the server's close frame).
Transport EOF and socket errors tear the connection down outside the close
handshake and also end deliveries, so they are not close-handshake
operations. -/
def closeHandshakeOp : WsOp → Bool
  | .callClose _ _ => true
  | .deliver _ _ => true
  | _ => false

/-- Invariant tying the close-handshake teardown to the two close-frame
flags, for states reachable from `initOpen` by close-handshake operations. -/
def CloseInv (s : WsState) : Prop :=
  (s.readyState = 1 ∨ s.readyState = 2 ∨ s.readyState = 3) ∧
  (s.readyState = 3 → s.handshakeClosed = true) ∧
  (s.handshakeClosed = true → s.closeFrameSent = true ∧ s.closeFrameReceived = true) ∧
  (s.closeFrameSent = true → s.readyState = 2 ∨ s.readyState = 3) ∧
  (s.closeFrameSent = true → s.closeFrameReceived = true → s.handshakeClosed = true)

/-- The part of `CloseInv` that survives having just set `closeFrameReceived`
(everything except the last conjunct); what `wsClose` needs to re-establish
the full invariant. -/
def CloseInvPre (s : WsState) : Prop :=
  (s.readyState = 1 ∨ s.readyState = 2 ∨ s.readyState = 3) ∧
  (s.readyState = 3 → s.handshakeClosed = true) ∧
  (s.handshakeClosed = true → s.closeFrameSent = true ∧ s.closeFrameReceived = true) ∧
  (s.closeFrameSent = true → s.readyState = 2 ∨ s.readyState = 3)

/-! ## Byte-level arithmetic lemmas -/

theorem getD_lt_256 {l : List Nat} (h : ∀ x ∈ l, x < 256) (i : Nat) : l.getD i 0 < 256 := by
  rcases hx : l[i]? with _ | x
  · simp [List.getD_eq_getElem?_getD, hx]
  · have hm : x ∈ l := by
      have := List.getElem?_eq_some_iff.mp hx
      rcases this with ⟨hi, rfl⟩
      exact List.getElem_mem hi
    have := h x hm
    simp only [List.getD_eq_getElem?_getD, hx, Option.getD_some]
    omega

theorem xor_lt_256 {a b : Nat} (ha : a < 256) (hb : b < 256) : a ^^^ b < 256 := by
  have h256 : (256 : Nat) = 2 ^ 8 := by norm_num
  rw [h256] at ha hb ⊢
  exact Nat.xor_lt_two_pow ha hb

theorem shiftLeft_lor_eq_add {k b : Nat} (a : Nat) (h : b < 2 ^ k) :
    a <<< k ||| b = 2 ^ k * a + b := by
  apply Nat.eq_of_testBit_eq
  intro i
  rw [Nat.testBit_lor, Nat.testBit_shiftLeft, Nat.testBit_mul_pow_two_add a h i]
  by_cases hik : i < k
  · have hk : ¬ k ≤ i := by omega
    simp [hik, hk]
  · have hk : k ≤ i := by omega
    have hb0 : b.testBit i = false := Nat.testBit_lt_two_pow (by
      calc b < 2 ^ k := h
        _ ≤ 2 ^ i := Nat.pow_le_pow_right (by omega) hk)
    simp [hik, hk, hb0]

theorem lor_128_of_lt {a : Nat} (h : a < 128) : a ||| 128 = a + 128 := by
  have h7 : a < 2 ^ 7 := by norm_num; omega
  have key : (1 : Nat) <<< 7 ||| a = 2 ^ 7 * 1 + a := shiftLeft_lor_eq_add 1 h7
  rw [show (1 : Nat) <<< 7 = 128 by decide] at key
  rw [Nat.lor_comm, key]
  norm_num
  omega

theorem and_15_eq_mod (a : Nat) : a &&& 15 = a % 16 := by
  have := Nat.and_pow_two_sub_one_eq_mod a 4
  norm_num at this
  exact this

theorem and_127_eq_mod (a : Nat) : a &&& 127 = a % 128 := by
  have := Nat.and_pow_two_sub_one_eq_mod a 7
  norm_num at this
  exact this

theorem and_65535_eq_mod (a : Nat) : a &&& 65535 = a % 65536 := by
  have := Nat.and_pow_two_sub_one_eq_mod a 16
  norm_num at this
  exact this

theorem and_128_eq_zero {a : Nat} (h : a < 128) : a &&& 128 = 0 := by
  have h1 := Nat.and_two_pow a 7
  have h2 : a.testBit 7 = false := Nat.testBit_lt_two_pow (by norm_num; omega)
  rw [h2] at h1
  simpa using h1

theorem add_128_and_128 {a : Nat} (h : a < 128) : (a + 128) &&& 128 = 128 := by
  have h1 := Nat.and_two_pow (a + 128) 7
  have h2 : (a + 128).testBit 7 = true := by
    rw [Nat.testBit_to_div_mod]
    norm_num
    omega
  rw [h2] at h1
  simpa using h1

/-! ## Masking lemmas -/

theorem applyMaskGo_length (mask : List Nat) (i : Nat) (l : List Nat) :
    (applyMaskGo mask i l).length = l.length := by
  induction l generalizing i with
  | nil => rfl
  | cons b rest ih => simp [applyMaskGo, ih]

theorem applyMask_length (source mask : List Nat) :
    (applyMask source mask).length = source.length := applyMaskGo_length mask 0 source

theorem applyMaskGo_involutive (mask : List Nat) (hm : ∀ j, mask.getD j 0 < 256)
    (l : List Nat) : (∀ x ∈ l, x < 256) →
    ∀ i, applyMaskGo mask i (applyMaskGo mask i l) = l := by
  induction l with
  | nil => intro _ i; rfl
  | cons b rest ih =>
    intro hl i
    have hb : b < 256 := hl b (by simp)
    have hrest : ∀ x ∈ rest, x < 256 := fun x hx => hl x (by simp [hx])
    have hk : mask.getD (i &&& 3) 0 < 256 := hm _
    have hxor : b ^^^ mask.getD (i &&& 3) 0 < 256 := xor_lt_256 hb hk
    simp only [applyMaskGo]
    rw [Nat.mod_eq_of_lt hxor, Nat.xor_cancel_right, Nat.mod_eq_of_lt hb, ih hrest (i + 1)]

theorem getD_append_len (pre : List Nat) (b : Nat) (rest : List Nat) (d : Nat) :
    (pre ++ b :: rest).getD pre.length d = b := by
  induction pre with
  | nil => rfl
  | cons a pre ih => simpa using ih

theorem set_append_len (pre : List Nat) (b x : Nat) (rest : List Nat) :
    (pre ++ b :: rest).set pre.length x = pre ++ x :: rest := by
  induction pre with
  | nil => rfl
  | cons a pre ih => simp [List.set, ih]

theorem applyMaskInPlaceGo_eq (mask : List Nat) (post : List Nat) : ∀ pre : List Nat,
    applyMaskInPlaceGo mask pre.length post.length (pre ++ post)
      = pre ++ applyMaskGo mask pre.length post := by
  induction post with
  | nil => intro pre; simp [applyMaskInPlaceGo, applyMaskGo]
  | cons b rest ih =>
    intro pre
    simp only [List.length_cons, applyMaskInPlaceGo, applyMaskGo]
    rw [getD_append_len, set_append_len]
    have hcons : pre ++ ((b ^^^ mask.getD (pre.length &&& 3) 0) % 256) :: rest
        = (pre ++ [(b ^^^ mask.getD (pre.length &&& 3) 0) % 256]) ++ rest := by
      simp
    rw [hcons]
    have hlen : pre.length + 1 = (pre ++ [(b ^^^ mask.getD (pre.length &&& 3) 0) % 256]).length := by
      simp
    rw [hlen, ih]
    simp

theorem applyMaskInPlace_eq_applyMask (data mask : List Nat) :
    applyMaskInPlace data mask = applyMask data mask := by
  have := applyMaskInPlaceGo_eq mask data []
  simpa [applyMaskInPlace, applyMask] using this

/-- C5: `mask(mask(data, key), key) = data` — applying the masking utility
twice with the same 4-byte key of byte values restores any byte sequence
(`data'[i] = data[i] XOR key[i mod 4]` is self-inverse). -/
theorem mask_self_inverse (data key : List Nat) (hkl : key.length = 4)
    (hd : ∀ b ∈ data, b < 256) (hk : ∀ b ∈ key, b < 256) :
    applyMask (applyMask data key) key = data := by
  have hm : ∀ j, key.getD j 0 < 256 := getD_lt_256 hk
  exact applyMaskGo_involutive key hm data hd 0

/-- Witness for C5 at a concrete payload and key. -/
theorem mask_self_inverse_witness :
    ([1, 2, 3, 4] : List Nat).length = 4 ∧ (∀ b ∈ [10, 20, 250, 0, 7], b < 256) ∧
      (∀ b ∈ [1, 2, 3, 4], b < 256) ∧
      applyMask (applyMask [10, 20, 250, 0, 7] [1, 2, 3, 4]) [1, 2, 3, 4] = [10, 20, 250, 0, 7] :=
  ⟨by decide, by decide, by decide,
    mask_self_inverse [10, 20, 250, 0, 7] [1, 2, 3, 4] (by decide) (by decide) (by decide)⟩

/-- C9: `createFrameBuffer` masks the payload in place — the caller-supplied
`data` buffer holds, after the call, exactly the XOR-masked bytes
(`applyMask` is invoked with the same buffer as source and output, and the
aliased in-place loop computes the same bytes as masking into a fresh
buffer). -/
theorem createFrameBuffer_masks_in_place (data : List Nat) (opcode : Nat) (fin rsv1 : Bool)
    (key : List Nat) :
    (createFrameBuffer data opcode fin rsv1 key).dataAfter = applyMask data key := by
  simp [createFrameBuffer, applyMaskInPlace_eq_applyMask]

/-! ## Close-payload parsing (C7) -/

/-- C7: a received close payload of exactly 1 byte always fails with the
explicit `Invalid payload length 1` error (never parsed as a truncated
code); an empty payload parses to the no-status code 1005 (with the default
reason); a payload of length ≥ 2 parses as a 2-byte big-endian status code
followed by the remaining reason bytes. -/
theorem close_payload_length_rules (data : List Nat) (h : ∀ b ∈ data, b < 256) :
    parseClosePayload data =
      match data with
      | [] => .ok (1005, strBytes "connection closed by server")
      | [_] => .error .invalidClosePayload
      | d0 :: d1 :: rest => .ok (256 * d0 + d1, rest) := by
  match data with
  | [] => rfl
  | [b] => rfl
  | d0 :: d1 :: rest =>
    have hd1 : d1 < 256 := h d1 (by simp)
    have hd1' : d1 < 2 ^ 8 := by norm_num; omega
    simp only [parseClosePayload, List.length_cons]
    rw [if_neg (by omega), if_neg (by omega)]
    have hbe : (d0 :: d1 :: rest).getD 0 0 <<< 8 ||| (d0 :: d1 :: rest).getD 1 0
        = 256 * d0 + d1 := by
      simp only [List.getD_cons_zero, List.getD_cons_succ]
      have := shiftLeft_lor_eq_add (k := 8) d0 hd1'
      norm_num at this
      omega
    rw [hbe]
    simp

/-- Witness for C7 at a 4-byte close payload: code 1000, reason bytes "hi". -/
theorem close_payload_length_rules_witness :
    (∀ b ∈ [3, 232, 104, 105], b < 256) ∧
      parseClosePayload [3, 232, 104, 105] = .ok (1000, [104, 105]) :=
  ⟨by decide, by simpa using close_payload_length_rules [3, 232, 104, 105] (by decide)⟩

/-! ## Unguarded extended-length read (C10) -/

/-- C10: for a buffer of length 2 or 3 whose 7-bit length field is 126 (and
which passes the earlier MASK and fragmented-control checks, which precede
the length parse), the decode reads the extended-length bytes at indices 2
and 3 without checking that the buffer holds at least 4 bytes: in the total
embedding the access is out of bounds. -/
theorem extended_length_read_out_of_bounds (buffer : List Nat)
    (hlen : buffer.length = 2 ∨ buffer.length = 3)
    (hmask : buffer.getD 1 0 &&& 0x80 = 0)
    (hpl : buffer.getD 1 0 &&& 0x7F = 126)
    (hctl : buffer.getD 0 0 &&& 0x0F = 8 ∨ buffer.getD 0 0 &&& 0x0F = 9 →
      buffer.getD 0 0 &&& 0x80 ≠ 0) :
    parseDataFrameChecked buffer = .error .outOfBounds := by
  rcases hlen with h2 | h3
  · obtain ⟨a, b, rfl⟩ := List.length_eq_two.mp h2
    simp only [List.getD_cons_zero, List.getD_cons_succ] at hmask hpl hctl
    simp only [parseDataFrameChecked, List.getElem?_cons_zero, List.getElem?_cons_succ,
      List.getElem?_nil]
    rw [if_neg (by simp [hmask])]
    rw [if_neg (by
      rintro ⟨hop, hfinf⟩
      exact absurd (hctl hop) (by simpa using hfinf))]
    rw [if_pos hpl]
  · obtain ⟨a, b, c, rfl⟩ := List.length_eq_three.mp h3
    simp only [List.getD_cons_zero, List.getD_cons_succ] at hmask hpl hctl
    simp only [parseDataFrameChecked, List.getElem?_cons_zero, List.getElem?_cons_succ,
      List.getElem?_nil]
    rw [if_neg (by simp [hmask])]
    rw [if_neg (by
      rintro ⟨hop, hfinf⟩
      exact absurd (hctl hop) (by simpa using hfinf))]
    rw [if_pos hpl]

/-- Witness for C10: the shortest masked-bit-clear frame declaring a 16-bit
extended length, delivered as a bare 2-byte header. -/
theorem extended_length_read_out_of_bounds_witness :
    (([0x81, 126] : List Nat).length = 2 ∨ ([0x81, 126] : List Nat).length = 3) ∧
      ([0x81, 126] : List Nat).getD 1 0 &&& 0x80 = 0 ∧
      ([0x81, 126] : List Nat).getD 1 0 &&& 0x7F = 126 ∧
      parseDataFrameChecked [0x81, 126] = .error .outOfBounds :=
  ⟨by decide, by decide, by decide,
    extended_length_read_out_of_bounds [0x81, 126] (by decide) (by decide) (by decide)
      (by decide)⟩

/-! ## Encode/decode round trip (C1) -/

/-- C1 counterexample: decoding the encoder's own output fails outright. The
encoder always sets the MASK bit (client-originated frames are masked) and
the decoder rejects every masked frame, so `Decode(Encode(opcode, payload,
fin=true, maskKey))` does not reproduce opcode, fin and payload — here for a
2-byte text payload and mask key `[1, 2, 3, 4]`. -/
theorem encode_then_decode_fails_cex :
    parseDataFrame (createFrameBuffer [104, 105] 0x1 true false [1, 2, 3, 4]).frame
      = .error .maskedFrame := by decide

/-- C1 (amended): for the five opcodes, decoding succeeds only on the
*unmasked form* of the encoded frame (MASK bit cleared, mask key removed,
payload XOR-unmasked — what a conforming server computes): there it
reproduces the opcode, the FIN flag and the payload exactly for every
payload length below 65536 (covering 0, 1, 125, 126, 65535), while for
lengths ≥ 65536 (such as 65537) the encoder emits the 64-bit length marker
127, which decoding rejects as unsupported. -/
theorem encode_roundtrip_after_unmask (opcode : Nat) (payload key : List Nat)
    (hop : opcode = 0x1 ∨ opcode = 0x2 ∨ opcode = 0x8 ∨ opcode = 0x9 ∨ opcode = 0xA)
    (hp : ∀ b ∈ payload, b < 256) (hk : ∀ b ∈ key, b < 256) (hkl : key.length = 4) :
    parseDataFrame (unmaskFrame (createFrameBuffer payload opcode true false key).frame
        (if 65536 ≤ payload.length then 14 else if 125 < payload.length then 8 else 6) key)
      = if 65536 ≤ payload.length then .error .unsupportedLen64
        else .ok ⟨true, opcode, payload.length, if 125 < payload.length then 4 else 2,
            (payload.length : Int), payload⟩ := by
  have hop16 : opcode < 16 := by rcases hop with h | h | h | h | h <;> omega
  have hop128 : opcode < 128 := by omega
  have hmEq : applyMaskInPlace payload key = applyMask payload key :=
    applyMaskInPlace_eq_applyMask payload key
  have hmaskedLen : (applyMask payload key).length = payload.length :=
    applyMask_length payload key
  have hun : applyMask (applyMask payload key) key = payload :=
    applyMaskGo_involutive key (getD_lt_256 hk) payload hp 0
  have hb0 : (opcode ||| 0x80) % 256 = opcode + 128 := by
    rw [lor_128_of_lt hop128]; omega
  have e0 : (opcode + 128) &&& 0x80 = 128 := add_128_and_128 hop128
  have e3 : (opcode + 128) &&& 0x0F = opcode := by
    rw [and_15_eq_mod]; omega
  by_cases hbig : 65536 ≤ payload.length
  · -- 64-bit length marker: the unmasked frame still fails to decode
    have hmid : 125 < payload.length := by omega
    have hfr : (createFrameBuffer payload opcode true false key).frame
        = (opcode + 128) :: 255 :: 0 :: 0 :: 0 :: 0
          :: (payload.length >>> 24) % 256 :: (payload.length >>> 16) % 256
          :: (payload.length >>> 8) % 256 :: payload.length % 256
          :: key.getD 0 0 % 256 :: key.getD 1 0 % 256 :: key.getD 2 0 % 256
          :: key.getD 3 0 % 256 :: applyMask payload key := by
      simp [createFrameBuffer, hmEq, hbig, hb0, u32be]
    rw [hfr, if_pos hbig, if_pos hbig]
    simp only [unmaskFrame]
    simp only [List.take_succ_cons, List.take_zero, List.drop_succ_cons, List.drop_zero,
      List.getD_cons_zero, List.getD_cons_succ, List.set_cons_succ, List.set_cons_zero,
      hun]
    norm_num [parseDataFrame]
    rw [if_pos (show (127 : Nat) &&& 128 = 0 by decide)]
    rw [if_neg (by
      rintro ⟨_, hf⟩
      rw [e0] at hf
      exact absurd hf (by norm_num))]
  · by_cases hmid : 125 < payload.length
    · -- 16-bit extended length
      have hlo : payload.length % 256 < 2 ^ 8 := by norm_num; omega
      have hhi : payload.length >>> 8 = payload.length / 256 := by
        rw [Nat.shiftRight_eq_div_pow]
      have hhiLt : payload.length / 256 < 256 := by omega
      have hfr : (createFrameBuffer payload opcode true false key).frame
          = (opcode + 128) :: 254 :: (payload.length / 256) :: payload.length % 256
            :: key.getD 0 0 % 256 :: key.getD 1 0 % 256 :: key.getD 2 0 % 256
            :: key.getD 3 0 % 256 :: applyMask payload key := by
        simp [createFrameBuffer, hmEq, hbig, hmid, hb0, u16be, hhi,
          Nat.mod_eq_of_lt hhiLt]
      rw [hfr, if_neg hbig, if_neg hbig, if_pos hmid, if_pos hmid]
      simp only [unmaskFrame]
      simp only [List.take_succ_cons, List.take_zero, List.drop_succ_cons, List.drop_zero,
        List.getD_cons_zero, List.getD_cons_succ, List.set_cons_succ, List.set_cons_zero,
        hun]
      have e1 : (254 : Nat) % 128 = 126 := by norm_num
      rw [e1]
      have hbe : (payload.length / 256) <<< 8 ||| (payload.length % 256 &&& 0xffff)
          = payload.length := by
        have hm : payload.length % 256 &&& 65535 = payload.length % 256 := by
          rw [and_65535_eq_mod]; omega
        rw [hm, shiftLeft_lor_eq_add (payload.length / 256) hlo]
        omega
      have hdata : bufCopyRead ((opcode + 128) :: 126 :: payload.length / 256
          :: payload.length % 256 :: payload) 4 payload.length = payload := by
        simp [bufCopyRead, List.take_length]
      simp only [List.cons_append, List.nil_append]
      simp only [parseDataFrame, List.getD_cons_zero, List.getD_cons_succ, e0, e3, hbe,
        hdata, show (126 : Nat) &&& 127 = 126 from by decide,
        show (126 : Nat) &&& 128 = 0 from by decide]
      norm_num
      omega
    · -- 7-bit inline length
      have hpl128 : payload.length < 128 := by omega
      have hb1 : (payload.length % 256 ||| 0x80) % 256 = payload.length + 128 := by
        rw [Nat.mod_eq_of_lt (show payload.length < 256 by omega), lor_128_of_lt hpl128]
        omega
      have hc126 : ¬ (payload.length = 126) := by omega
      have hc127 : ¬ (payload.length = 127) := by omega
      have hfr : (createFrameBuffer payload opcode true false key).frame
          = (opcode + 128) :: (payload.length + 128)
            :: key.getD 0 0 % 256 :: key.getD 1 0 % 256 :: key.getD 2 0 % 256
            :: key.getD 3 0 % 256 :: applyMask payload key := by
        simp [createFrameBuffer, hmEq, hbig, hmid, hb0, hb1, hc126, hc127]
      rw [hfr, if_neg hbig, if_neg hbig, if_neg hmid, if_neg hmid]
      simp only [unmaskFrame]
      simp only [List.take_succ_cons, List.take_zero, List.drop_succ_cons, List.drop_zero,
        List.getD_cons_zero, List.getD_cons_succ, List.set_cons_succ, List.set_cons_zero,
        hun]
      have e1 : (payload.length + 128) % 128 = payload.length := by omega
      rw [e1]
      have e4 : payload.length &&& 0x80 = 0 := and_128_eq_zero hpl128
      have e5 : payload.length &&& 0x7F = payload.length := by
        rw [and_127_eq_mod]; omega
      simp only [List.cons_append, List.nil_append]
      simp only [parseDataFrame, List.getD_cons_zero, List.getD_cons_succ, e0, e3, e4, e5]
      rw [if_neg (by decide)]
      rw [if_neg (by rintro ⟨_, hf⟩; simp at hf)]
      rw [if_neg hc126, if_neg hc127]
      have hnc : ¬ ((opcode + 128) :: payload.length :: payload).length < payload.length := by
        simp
        omega
      rw [if_neg hnc]
      have hdata : bufCopyRead ((opcode + 128) :: payload.length :: payload) 2
          payload.length = payload := by
        simp [bufCopyRead, List.take_length]
      rw [hdata]
      norm_num

/-- Witness for C1 (amended) at opcode text, payload "hi", mask key
`[1, 2, 3, 4]`. -/
theorem encode_roundtrip_after_unmask_witness :
    ((0x1 : Nat) = 0x1 ∨ (0x1 : Nat) = 0x2 ∨ (0x1 : Nat) = 0x8 ∨ (0x1 : Nat) = 0x9 ∨
        (0x1 : Nat) = 0xA) ∧
      (∀ b ∈ [104, 105], b < 256) ∧ (∀ b ∈ [1, 2, 3, 4], b < 256) ∧
      ([1, 2, 3, 4] : List Nat).length = 4 ∧
      parseDataFrame (unmaskFrame (createFrameBuffer [104, 105] 0x1 true false [1, 2, 3, 4]).frame
          (if 65536 ≤ ([104, 105] : List Nat).length then 14
            else if 125 < ([104, 105] : List Nat).length then 8 else 6) [1, 2, 3, 4])
        = if 65536 ≤ ([104, 105] : List Nat).length then .error .unsupportedLen64
          else .ok ⟨true, 0x1, ([104, 105] : List Nat).length,
              if 125 < ([104, 105] : List Nat).length then 4 else 2,
              (([104, 105] : List Nat).length : Int), [104, 105]⟩ :=
  ⟨by decide, by decide, by decide, by decide,
    encode_roundtrip_after_unmask 0x1 [104, 105] [1, 2, 3, 4] (by decide) (by decide)
      (by decide) (by decide)⟩

/-! ## Reassembly loop (C2) -/

/-- C2 (code bug): a delivery holding two complete concatenated unmasked text
frames `0x81 0x01 'A'` dispatches only one `message` event and ends without
any error. `processDataFrame` returns the result of `buffer.copy` — the
number of bytes copied, not the remaining buffer — so after the first frame
the loop variable is a number, `(3).length` is `undefined`, `undefined >= 2`
is `false`, and the loop exits, silently discarding the second frame instead
of decoding it (and instead of retaining the leftover bytes). -/
theorem reassembly_dispatches_only_first_frame :
    (processDataFramesInBuffer initOpen [0x81, 1, 65, 0x81, 1, 65]).1.events
        = [.evMessage true [65]] ∧
      (processDataFramesInBuffer initOpen [0x81, 1, 65, 0x81, 1, 65]).2 = none := by
  decide

/-! ## Continuation frame with no open message (C6) -/

/-- C6 counterexample: a lone continuation frame (`0x80 0x00`: fin,
opcode 0, empty payload) delivered with no message in progress raises no
error at all — no `error` event is emitted and nothing is thrown — contrary
to the claimed protocol error. -/
theorem continuation_without_open_no_error_cex :
    (processDataFrame initOpen [0x80, 0]).1.events = [] ∧
      (processDataFrame initOpen [0x80, 0]).2.1 = none := by
  decide

theorem dispatchResponse_continuation (ws : WsState) (r : WsResponse) (hop : r.opcode = 0) :
    dispatchResponse ws r = (ws, none) := by
  unfold dispatchResponse
  rw [if_neg (by omega), if_neg (by omega), if_neg (by omega), if_neg (by omega)]

theorem processResponse_continuation (ws : WsState) (r : WsResponse) (hop : r.opcode = 0) :
    processResponse ws r = if r.isFin = true ∧ r.bytesLeft ≤ 0
      then ({ ws with responseStack := ws.responseStack.dropLast }, none) else (ws, none) := by
  unfold processResponse
  rw [dispatchResponse_continuation ws r hop]

theorem finishFrame_continuation_silent (ws : WsState) (buffer : List Nat)
    (pf : ParsedFrame) (r : WsResponse) (isNew : Bool) (hop : r.opcode = 0) :
    (finishFrame ws buffer pf r isNew).1.events = ws.events ∧
      (finishFrame ws buffer pf r isNew).1.readyState = ws.readyState ∧
      (finishFrame ws buffer pf r isNew).1.sentFrames = ws.sentFrames := by
  unfold finishFrame
  cases isNew <;>
    · simp only [Bool.false_eq_true, if_false, if_true]
      rw [processResponse_continuation _ _ (by simp [hop])]
      split
      · rename_i ws' e heq
        exfalso
        split at heq <;> simp_all
      · rename_i ws' heq
        split at heq
        · injection heq with h1 h2
          subst h1
          split <;> simp
        · injection heq with h1 h2
          subst h1
          split <;> simp

theorem handleParsedFrame_continuation_silent (ws : WsState) (buffer : List Nat)
    (pf : ParsedFrame) (hstack : ws.responseStack = []) (hop : pf.opcode = 0) :
    (handleParsedFrame ws buffer pf).1.events = ws.events ∧
      (handleParsedFrame ws buffer pf).1.readyState = ws.readyState ∧
      (handleParsedFrame ws buffer pf).1.sentFrames = ws.sentFrames := by
  simp only [handleParsedFrame, hstack, List.getLast?_nil]
  exact finishFrame_continuation_silent ws buffer pf _ true (by simp [hop])

/-- C6 (amended): a continuation frame arriving with no in-progress message
is *not* rejected: the engine raises no error and emits no event (and sends
nothing); it silently opens a fresh response from the continuation frame,
which — its opcode 0 matching no dispatch branch — is discarded without a
`message` event if the frame completes it. -/
theorem continuation_without_open_message_silent (ws : WsState) (buffer : List Nat)
    (hstack : ws.responseStack = [])
    (hop : buffer.getD 0 0 &&& 0x0F = 0)
    (hmask : buffer.getD 1 0 &&& 0x80 = 0)
    (hpl : buffer.getD 1 0 &&& 0x7F ≠ 127) :
    (processDataFrame ws buffer).1.events = ws.events ∧
      (processDataFrame ws buffer).1.readyState = ws.readyState ∧
      (processDataFrame ws buffer).1.sentFrames = ws.sentFrames := by
  have hparse : ∃ pf : ParsedFrame, parseDataFrame buffer = .ok pf ∧ pf.opcode = 0 := by
    simp only [parseDataFrame]
    rw [hop, hmask]
    rw [if_neg (by simp)]
    rw [if_neg (by rintro ⟨h8, _⟩; rcases h8 with h8 | h8 <;> omega)]
    by_cases h126 : buffer.getD 1 0 &&& 0x7F = 126
    · rw [if_pos h126]
      exact ⟨_, rfl, rfl⟩
    · rw [if_neg h126, if_neg hpl]
      exact ⟨_, rfl, rfl⟩
  obtain ⟨pf, hpf, hpfop⟩ := hparse
  simp only [processDataFrame, hpf]
  exact handleParsedFrame_continuation_silent ws buffer pf hstack hpfop

/-- Witness for C6 (amended): an empty continuation frame delivered to a
fresh OPEN connection. -/
theorem continuation_without_open_message_silent_witness :
    initOpen.responseStack = [] ∧
      ([0x80, 0] : List Nat).getD 0 0 &&& 0x0F = 0 ∧
      ([0x80, 0] : List Nat).getD 1 0 &&& 0x80 = 0 ∧
      ([0x80, 0] : List Nat).getD 1 0 &&& 0x7F ≠ 127 ∧
      ((processDataFrame initOpen [0x80, 0]).1.events = initOpen.events ∧
        (processDataFrame initOpen [0x80, 0]).1.readyState = initOpen.readyState ∧
        (processDataFrame initOpen [0x80, 0]).1.sentFrames = initOpen.sentFrames) :=
  ⟨by decide, by decide, by decide, by decide,
    continuation_without_open_message_silent initOpen [0x80, 0] (by decide) (by decide)
      (by decide) (by decide)⟩

/-! ## Masked inbound frames (C3) -/

/-- C3: every inbound frame whose MASK bit (byte 1, bit 7) is set is
rejected before any payload handling: from an OPEN connection (remote close
frame not yet received), `processDataFrame` emits exactly one `error` event
(`Received masked data from server`), initiates the close handshake with
protocol-error code 1002 (`readyState` moves to CLOSING and the outbound
close frame carries the big-endian bytes `[3, 234]` of 1002), and dispatches
no `message` — the new event list is the old one plus the single error. -/
theorem masked_frame_always_rejected (ws : WsState) (buffer : List Nat)
    (hrs : ws.readyState = 1) (hrecv : ws.closeFrameReceived = false)
    (hmask : buffer.getD 1 0 &&& 0x80 ≠ 0) :
    (processDataFrame ws buffer).1.events = ws.events ++ [.evError .maskedData] ∧
      (processDataFrame ws buffer).1.readyState = 2 ∧
      (processDataFrame ws buffer).1.sentFrames
        = ws.sentFrames ++ [⟨0x8, [3, 234] ++ errText .maskedData, true⟩] ∧
      (processDataFrame ws buffer).2.2 = JsVal.undef := by
  have hparse : parseDataFrame buffer = .error .maskedFrame := by
    simp only [parseDataFrame]
    rw [if_pos (by simpa using hmask)]
  have hne : errText ErrTag.maskedData ≠ [] := by decide
  have hu16 : u16be 1002 = [3, 234] := by decide
  obtain ⟨rs, cfs, cfr, stack, conn, scl, hcl, evs, sf⟩ := ws
  simp only at hrs hrecv
  subst hrs hrecv
  simp [processDataFrame, hparse, disconnectAndEmitError, wsClose, closePayload, hne, hu16]

/-- Witness for C3: a masked empty text frame delivered to a fresh OPEN
connection. -/
theorem masked_frame_always_rejected_witness :
    initOpen.readyState = 1 ∧ initOpen.closeFrameReceived = false ∧
      ([0x81, 0x80] : List Nat).getD 1 0 &&& 0x80 ≠ 0 ∧
      ((processDataFrame initOpen [0x81, 0x80]).1.events
          = initOpen.events ++ [.evError .maskedData] ∧
        (processDataFrame initOpen [0x81, 0x80]).1.readyState = 2 ∧
        (processDataFrame initOpen [0x81, 0x80]).1.sentFrames
          = initOpen.sentFrames ++ [⟨0x8, [3, 234] ++ errText .maskedData, true⟩] ∧
        (processDataFrame initOpen [0x81, 0x80]).2.2 = JsVal.undef) :=
  ⟨by decide, by decide, by decide,
    masked_frame_always_rejected initOpen [0x81, 0x80] (by decide) (by decide) (by decide)⟩

/-! ## readyState monotonicity lemmas (towards C8) -/

theorem wsClose_readyState_mono (ws : WsState) (c : Option Nat) (r : Option (List Nat))
    (h : ws.readyState ≤ 3) :
    ws.readyState ≤ (wsClose ws c r).1.readyState ∧ (wsClose ws c r).1.readyState ≤ 3 := by
  unfold wsClose
  by_cases h3 : ws.readyState = 3
  · rw [if_pos h3]
    exact ⟨le_rfl, h⟩
  · rw [if_neg h3]
    by_cases h0 : ws.readyState = 0
    · rw [if_pos h0]
      simp [abortHandshake, emitClose]
      omega
    · rw [if_neg h0]
      by_cases h2 : ws.readyState = 2
      · rw [if_pos h2]
        by_cases hb : (ws.closeFrameSent && ws.closeFrameReceived) = true
        · rw [if_pos hb]
          simp [closeSocket, emitClose]
          omega
        · rw [if_neg hb]
          exact ⟨le_rfl, h⟩
      · rw [if_neg h2]
        cases hcp : closePayload c r with
        | error e =>
          simp [hcp]
          omega
        | ok payload =>
          simp only [hcp]
          by_cases hr : ws.closeFrameReceived = true
          · simp [hr, closeSocket, emitClose]
            omega
          · simp [hr]
            omega

theorem disconnect_readyState_mono (ws : WsState) (tag : ErrTag) (cc : Option Nat)
    (h : ws.readyState ≤ 3) :
    ws.readyState ≤ (disconnectAndEmitError ws tag cc).1.readyState ∧
      (disconnectAndEmitError ws tag cc).1.readyState ≤ 3 := by
  unfold disconnectAndEmitError
  have := wsClose_readyState_mono { ws with events := ws.events ++ [.evError tag] }
    (some (cc.getD 1006)) (some (errText tag)) (by simpa using h)
  simpa using this

theorem wsPongFromPing_readyState (ws : WsState) (data : List Nat) :
    (wsPongFromPing ws data).1.readyState = ws.readyState := by
  unfold wsPongFromPing
  split
  · rfl
  · split <;> rfl

theorem processCloseFrame_readyState_mono (ws : WsState) (data : List Nat)
    (h : ws.readyState ≤ 3) :
    ws.readyState ≤ (processCloseFrame ws data).1.readyState ∧
      (processCloseFrame ws data).1.readyState ≤ 3 := by
  unfold processCloseFrame
  split
  · exact ⟨le_rfl, h⟩
  · rename_i x cc cr heq
    split
    · have := wsClose_readyState_mono { ws with closeFrameReceived := true } none none
        (by simpa using h)
      simpa using this
    · have := wsClose_readyState_mono { ws with closeFrameReceived := true }
        (some cc) (some cr) (by simpa using h)
      simpa using this

theorem dispatchResponse_readyState_mono (ws : WsState) (r : WsResponse)
    (h : ws.readyState ≤ 3) :
    ws.readyState ≤ (dispatchResponse ws r).1.readyState ∧
      (dispatchResponse ws r).1.readyState ≤ 3 := by
  unfold dispatchResponse
  split
  · cases hp : wsPongFromPing ws r.buffer with
    | mk wsp oe =>
      have hrs := wsPongFromPing_readyState ws r.buffer
      rw [hp] at hrs
      simp at hrs
      cases oe with
      | some e => simp [hrs]; omega
      | none => simp [hrs]; omega
  · split
    · exact processCloseFrame_readyState_mono ws r.buffer h
    · split
      · exact ⟨by simp, by simpa using h⟩
      · split
        · exact ⟨by simp, by simpa using h⟩
        · exact ⟨le_rfl, h⟩

theorem processResponse_readyState_mono (ws : WsState) (r : WsResponse)
    (h : ws.readyState ≤ 3) :
    ws.readyState ≤ (processResponse ws r).1.readyState ∧
      (processResponse ws r).1.readyState ≤ 3 := by
  unfold processResponse
  split
  · have hd := dispatchResponse_readyState_mono ws r h
    cases hdp : dispatchResponse ws r with
    | mk ws' oe =>
      rw [hdp] at hd
      simp at hd
      cases oe with
      | some e => simpa using hd
      | none => simpa using hd
  · exact ⟨le_rfl, h⟩

theorem processResponse_rs_out {ws : WsState} {r : WsResponse} {ws' : WsState}
    {oe : Option JsErr} (heq : processResponse ws r = (ws', oe)) (h : ws.readyState ≤ 3) :
    ws.readyState ≤ ws'.readyState ∧ ws'.readyState ≤ 3 := by
  have := processResponse_readyState_mono ws r h
  rw [heq] at this
  simpa using this

theorem disconnect_rs_out {ws : WsState} {tag : ErrTag} {cc : Option Nat} {ws' : WsState}
    {oe : Option JsErr} (heq : disconnectAndEmitError ws tag cc = (ws', oe))
    (h : ws.readyState ≤ 3) :
    ws.readyState ≤ ws'.readyState ∧ ws'.readyState ≤ 3 := by
  have := disconnect_readyState_mono ws tag cc h
  rw [heq] at this
  simpa using this

theorem finishFrame_readyState_mono (ws : WsState) (buffer : List Nat) (pf : ParsedFrame)
    (r : WsResponse) (isNew : Bool) (h : ws.readyState ≤ 3) :
    ws.readyState ≤ (finishFrame ws buffer pf r isNew).1.readyState ∧
      (finishFrame ws buffer pf r isNew).1.readyState ≤ 3 := by
  unfold finishFrame
  cases isNew <;>
    · simp only [Bool.false_eq_true, if_false, if_true]
      split
      · rename_i ws2 e heq
        have := processResponse_rs_out heq (by simpa using h)
        simpa using this
      · rename_i ws2 heq
        have := processResponse_rs_out heq (by simpa using h)
        split <;> simpa using this

theorem handleParsedFrame_readyState_mono (ws : WsState) (buffer : List Nat)
    (pf : ParsedFrame) (h : ws.readyState ≤ 3) :
    ws.readyState ≤ (handleParsedFrame ws buffer pf).1.readyState ∧
      (handleParsedFrame ws buffer pf).1.readyState ≤ 3 := by
  unfold handleParsedFrame
  split
  · exact finishFrame_readyState_mono ws buffer pf _ true h
  · split
    · exact finishFrame_readyState_mono ws buffer pf _ false h
    · split
      · rename_i ws1 e heq
        have := disconnect_rs_out heq h
        simpa using this
      · rename_i ws1 heq
        have hd := disconnect_rs_out heq h
        refine ⟨le_trans hd.1 (finishFrame_readyState_mono ws1 buffer pf _ false hd.2).1,
          (finishFrame_readyState_mono ws1 buffer pf _ false hd.2).2⟩

theorem processDataFrame_readyState_mono (ws : WsState) (buffer : List Nat)
    (h : ws.readyState ≤ 3) :
    ws.readyState ≤ (processDataFrame ws buffer).1.readyState ∧
      (processDataFrame ws buffer).1.readyState ≤ 3 := by
  unfold processDataFrame
  split
  · have := disconnect_readyState_mono ws .maskedData (some 1002) h
    simpa using this
  · have := disconnect_readyState_mono ws .fragmentedControl (some 1002) h
    simpa using this
  · exact ⟨le_rfl, h⟩
  · exact handleParsedFrame_readyState_mono ws buffer _ h

theorem processDataFrame_rs_out {ws : WsState} {buffer : List Nat} {ws' : WsState}
    {oe : Option JsErr} {v : JsVal} (heq : processDataFrame ws buffer = (ws', oe, v))
    (h : ws.readyState ≤ 3) :
    ws.readyState ≤ ws'.readyState ∧ ws'.readyState ≤ 3 := by
  have := processDataFrame_readyState_mono ws buffer h
  rw [heq] at this
  simpa using this

theorem pdfLoop_succ_eq (fuel : Nat) (ws : WsState) (v : JsVal) :
    pdfLoop (fuel + 1) ws v =
      match jsLenGe2 v with
      | .error e => (ws, some e)
      | .ok false => pdfLeftover ws v
      | .ok true =>
        match v with
        | .buf l =>
          match processDataFrame ws l with
          | (ws, some e, _) => (ws, some e)
          | (ws, none, v) => pdfLoop fuel ws v
        | .num _ => (ws, some .fuelOut)
        | .undef => (ws, some .fuelOut) := rfl

theorem pdfLoop_readyState_mono (fuel : Nat) : ∀ (ws : WsState) (v : JsVal),
    ws.readyState ≤ 3 →
    ws.readyState ≤ (pdfLoop fuel ws v).1.readyState ∧ (pdfLoop fuel ws v).1.readyState ≤ 3 := by
  induction fuel with
  | zero => exact fun ws v h => ⟨le_rfl, h⟩
  | succ n ih =>
    intro ws v h
    rw [pdfLoop_succ_eq]
    split
    · exact ⟨le_rfl, h⟩
    · unfold pdfLeftover
      split <;> exact ⟨le_rfl, h⟩
    · split
      · split
        · rename_i ws2 e x heq
          exact processDataFrame_rs_out heq h
        · rename_i ws2 v2 heq
          have hd := processDataFrame_rs_out heq h
          have hl := ih ws2 v2 hd.2
          exact ⟨le_trans hd.1 hl.1, hl.2⟩
      · exact ⟨le_rfl, h⟩
      · exact ⟨le_rfl, h⟩

theorem processDataFramesInBuffer_readyState_mono (ws : WsState) (buffer : List Nat)
    (h : ws.readyState ≤ 3) :
    ws.readyState ≤ (processDataFramesInBuffer ws buffer).1.readyState ∧
      (processDataFramesInBuffer ws buffer).1.readyState ≤ 3 :=
  pdfLoop_readyState_mono (buffer.length + 1) ws (.buf buffer) h

/-! ## C8: readyState is monotone across every operation -/

/-- C8: across every modeled operation (transport EOF, socket error, byte
delivery — handshake or frames —, application `close` call), `readyState`
never decreases, stays within CONNECTING..CLOSED, and OPEN is never entered
except from CONNECTING (if a step ends in OPEN, the state before it was
CONNECTING or already OPEN). -/
theorem readyState_monotone (ws : WsState) (op : WsOp) (h : ws.readyState ≤ 3) :
    ws.readyState ≤ (step ws op).1.readyState ∧ (step ws op).1.readyState ≤ 3 ∧
      ((step ws op).1.readyState = 1 → ws.readyState ≤ 1) := by
  have main : ws.readyState ≤ (step ws op).1.readyState ∧ (step ws op).1.readyState ≤ 3 := by
    cases op with
    | transportEof =>
      simp only [step]
      split
      · exact ⟨le_rfl, h⟩
      · exact ⟨by simpa [socketOnClose, emitClose] using h, by simp [socketOnClose, emitClose]⟩
    | socketError =>
      simp only [step]
      exact ⟨by simpa using h, by simp⟩
    | deliver hs buffer =>
      simp only [step]
      split
      · rename_i h0
        cases hs <;>
          simp [processHandshake, abortHandshake, emitClose, h0]
      · exact processDataFramesInBuffer_readyState_mono ws buffer h
    | callClose c r => exact wsClose_readyState_mono ws c r h
  exact ⟨main.1, main.2, fun h1 => h1 ▸ main.1⟩

/-- Witness for C8: a `close()` call on a fresh OPEN connection. -/
theorem readyState_monotone_witness :
    initOpen.readyState ≤ 3 ∧
      (initOpen.readyState ≤ (step initOpen (.callClose (some 1000) none)).1.readyState ∧
        (step initOpen (.callClose (some 1000) none)).1.readyState ≤ 3 ∧
        ((step initOpen (.callClose (some 1000) none)).1.readyState = 1 →
          initOpen.readyState ≤ 1)) :=
  ⟨by decide, readyState_monotone initOpen (.callClose (some 1000) none) (by decide)⟩

/-! ## Close-handshake invariant lemmas (towards C4) -/

theorem wsClose_closeInv (s : WsState) (c : Option Nat) (r : Option (List Nat))
    (h : CloseInvPre s) : CloseInv (wsClose s c r).1 := by
  obtain ⟨rs, cs, cr, stack, conn, scl, hc, evs, sf⟩ := s
  obtain ⟨hA, hB, hC, hD⟩ := h
  simp only at hA hB hC hD
  unfold wsClose
  dsimp only
  by_cases h3 : rs = 3
  · rw [if_pos h3]
    exact ⟨hA, hB, hC, hD, fun _ _ => hB h3⟩
  · rw [if_neg h3]
    by_cases h0 : rs = 0
    · exfalso
      rcases hA with h | h | h <;> omega
    · rw [if_neg h0]
      by_cases h2 : rs = 2
      · rw [if_pos h2]
        by_cases hb : (cs && cr) = true
        · rw [if_pos hb]
          simp only [Bool.and_eq_true] at hb
          unfold closeSocket emitClose CloseInv
          simp [hb.1, hb.2]
        · rw [if_neg hb]
          refine ⟨hA, hB, hC, hD, fun hs hr => ?_⟩
          exact absurd (by rw [show cs = true from hs, show cr = true from hr]; rfl) hb
      · rw [if_neg h2]
        have h1 : rs = 1 := by rcases hA with h | h | h <;> omega
        have hcs0 : cs = false := by
          cases hcsv : cs
          · rfl
          · rcases hD hcsv with h | h <;> omega
        subst hcs0
        cases hcp : closePayload c r with
        | error e =>
          simp only [hcp]
          exact ⟨Or.inr (Or.inl rfl),
            fun hh => absurd (show (2 : Nat) = 3 from hh) (by omega),
            fun hh => absurd (hC (show hc = true from hh)).1 (by simp),
            fun hh => absurd (show false = true from hh) (by simp),
            fun hh _ => absurd (show false = true from hh) (by simp)⟩
        | ok payload =>
          simp only [hcp]
          by_cases hr : cr = true
          · rw [show cr = true from hr]
            rw [if_pos (show true = true from rfl)]
            unfold closeSocket emitClose CloseInv
            simp [hr]
          · have hcr0 : cr = false := by
              cases cr
              · rfl
              · exact absurd rfl hr
            subst hcr0
            rw [if_neg (show ¬ false = true by simp)]
            exact ⟨Or.inr (Or.inl rfl),
              fun hh => absurd (show (2 : Nat) = 3 from hh) (by omega),
              fun hh => absurd (hC (show hc = true from hh)).1 (by simp),
              fun _ => Or.inl rfl,
              fun _ hh => absurd (show false = true from hh) (by simp)⟩

theorem wsClose_closeInv_out {s : WsState} {c : Option Nat} {r : Option (List Nat)}
    {ws' : WsState} {oe : Option JsErr} (heq : wsClose s c r = (ws', oe))
    (h : CloseInvPre s) : CloseInv ws' := by
  have := wsClose_closeInv s c r h
  rw [heq] at this
  exact this

theorem closeInvPre_of_closeInv {s : WsState} (h : CloseInv s) : CloseInvPre s :=
  ⟨h.1, h.2.1, h.2.2.1, h.2.2.2.1⟩

theorem closeInv_congr {a b : WsState} (h : CloseInv a)
    (h1 : b.readyState = a.readyState) (h2 : b.closeFrameSent = a.closeFrameSent)
    (h3 : b.closeFrameReceived = a.closeFrameReceived)
    (h4 : b.handshakeClosed = a.handshakeClosed) : CloseInv b := by
  obtain ⟨hA, hB, hC, hD, hE⟩ := h
  unfold CloseInv
  rw [h1, h2, h3, h4]
  exact ⟨hA, hB, hC, hD, hE⟩

theorem wsPongFromPing_closeInv {ws : WsState} {data : List Nat} {ws' : WsState}
    {oe : Option JsErr} (heq : wsPongFromPing ws data = (ws', oe)) (h : CloseInv ws) :
    CloseInv ws' := by
  unfold wsPongFromPing at heq
  split at heq
  · injection heq with h1 _
    subst h1
    exact h
  · split at heq
    · injection heq with h1 _
      subst h1
      exact h
    · injection heq with h1 _
      subst h1
      exact h

theorem processCloseFrame_closeInv {ws : WsState} {data : List Nat} {ws' : WsState}
    {oe : Option JsErr} (heq : processCloseFrame ws data = (ws', oe)) (h : CloseInv ws) :
    CloseInv ws' := by
  unfold processCloseFrame at heq
  split at heq
  · injection heq with h1 _
    subst h1
    exact h
  · have hpre : CloseInvPre { ws with closeFrameReceived := true } := by
      obtain ⟨hA, hB, hC, hD, hE⟩ := h
      exact ⟨hA, hB, fun hh => ⟨(hC hh).1, rfl⟩, hD⟩
    split at heq
    · exact wsClose_closeInv_out heq hpre
    · exact wsClose_closeInv_out heq hpre

theorem dispatchResponse_closeInv {ws : WsState} {r : WsResponse} {ws' : WsState}
    {oe : Option JsErr} (heq : dispatchResponse ws r = (ws', oe)) (h : CloseInv ws) :
    CloseInv ws' := by
  unfold dispatchResponse at heq
  split at heq
  · split at heq
    · rename_i wsp e heqp
      injection heq with h1 _
      subst h1
      exact wsPongFromPing_closeInv heqp h
    · rename_i wsp heqp
      injection heq with h1 _
      subst h1
      exact closeInv_congr (wsPongFromPing_closeInv heqp h) rfl rfl rfl rfl
  · split at heq
    · exact processCloseFrame_closeInv heq h
    · split at heq
      · injection heq with h1 _
        subst h1
        exact h
      · split at heq
        · injection heq with h1 _
          subst h1
          exact h
        · injection heq with h1 _
          subst h1
          exact h

theorem processResponse_closeInv {ws : WsState} {r : WsResponse} {ws' : WsState}
    {oe : Option JsErr} (heq : processResponse ws r = (ws', oe)) (h : CloseInv ws) :
    CloseInv ws' := by
  unfold processResponse at heq
  split at heq
  · split at heq
    · rename_i ws2 e heq2
      injection heq with h1 _
      subst h1
      exact dispatchResponse_closeInv heq2 h
    · rename_i ws2 heq2
      injection heq with h1 _
      subst h1
      exact closeInv_congr (dispatchResponse_closeInv heq2 h) rfl rfl rfl rfl
  · injection heq with h1 _
    subst h1
    exact h

theorem finishFrame_closeInv (ws : WsState) (buffer : List Nat) (pf : ParsedFrame)
    (r : WsResponse) (isNew : Bool) (h : CloseInv ws) :
    CloseInv (finishFrame ws buffer pf r isNew).1 := by
  unfold finishFrame
  cases isNew <;>
    · simp only [Bool.false_eq_true, if_false, if_true]
      split
      · rename_i ws2 e heq
        exact processResponse_closeInv heq h
      · rename_i ws2 heq
        split
        · exact processResponse_closeInv heq h
        · exact processResponse_closeInv heq h

theorem disconnect_closeInv (ws : WsState) (tag : ErrTag) (cc : Option Nat)
    (h : CloseInv ws) : CloseInv (disconnectAndEmitError ws tag cc).1 := by
  unfold disconnectAndEmitError
  exact wsClose_closeInv _ _ _ (closeInvPre_of_closeInv h)

theorem disconnect_closeInv_out {ws : WsState} {tag : ErrTag} {cc : Option Nat}
    {ws' : WsState} {oe : Option JsErr} (heq : disconnectAndEmitError ws tag cc = (ws', oe))
    (h : CloseInv ws) : CloseInv ws' := by
  have := disconnect_closeInv ws tag cc h
  rw [heq] at this
  exact this

theorem handleParsedFrame_closeInv (ws : WsState) (buffer : List Nat) (pf : ParsedFrame)
    (h : CloseInv ws) : CloseInv (handleParsedFrame ws buffer pf).1 := by
  unfold handleParsedFrame
  split
  · exact finishFrame_closeInv _ _ _ _ _ h
  · split
    · exact finishFrame_closeInv _ _ _ _ _ h
    · split
      · rename_i ws1 e heq
        exact disconnect_closeInv_out heq h
      · rename_i ws1 heq
        exact finishFrame_closeInv _ _ _ _ _ (disconnect_closeInv_out heq h)

theorem processDataFrame_closeInv (ws : WsState) (buffer : List Nat) (h : CloseInv ws) :
    CloseInv (processDataFrame ws buffer).1 := by
  unfold processDataFrame
  split
  · exact disconnect_closeInv ws .maskedData (some 1002) h
  · exact disconnect_closeInv ws .fragmentedControl (some 1002) h
  · exact h
  · exact handleParsedFrame_closeInv ws buffer _ h

theorem processDataFrame_closeInv_out {ws : WsState} {buffer : List Nat} {ws' : WsState}
    {oe : Option JsErr} {v : JsVal} (heq : processDataFrame ws buffer = (ws', oe, v))
    (h : CloseInv ws) : CloseInv ws' := by
  have := processDataFrame_closeInv ws buffer h
  rw [heq] at this
  exact this

theorem pdfLoop_closeInv (fuel : Nat) : ∀ (ws : WsState) (v : JsVal), CloseInv ws →
    CloseInv (pdfLoop fuel ws v).1 := by
  induction fuel with
  | zero => exact fun ws v h => h
  | succ n ih =>
    intro ws v h
    rw [pdfLoop_succ_eq]
    split
    · exact h
    · unfold pdfLeftover
      split <;> exact h
    · split
      · split
        · rename_i ws2 e x heq
          exact processDataFrame_closeInv_out heq h
        · rename_i ws2 v2 heq
          exact ih ws2 v2 (processDataFrame_closeInv_out heq h)
      · exact h
      · exact h

theorem processDataFramesInBuffer_closeInv (ws : WsState) (buffer : List Nat)
    (h : CloseInv ws) : CloseInv (processDataFramesInBuffer ws buffer).1 :=
  pdfLoop_closeInv _ ws (.buf buffer) h

theorem step_closeInv (s : WsState) (op : WsOp) (hop : closeHandshakeOp op = true)
    (h : CloseInv s) : CloseInv (step s op).1 := by
  cases op with
  | transportEof => simp [closeHandshakeOp] at hop
  | socketError => simp [closeHandshakeOp] at hop
  | deliver hs buffer =>
    simp only [step]
    have h0 : ¬ s.readyState = 0 := by
      rcases h.1 with hh | hh | hh <;> omega
    rw [if_neg h0]
    exact processDataFramesInBuffer_closeInv s buffer h
  | callClose c r => exact wsClose_closeInv s c r (closeInvPre_of_closeInv h)

theorem run_closeInv (ops : List WsOp) : ∀ s : WsState,
    (∀ op ∈ ops, closeHandshakeOp op = true) → CloseInv s → CloseInv (run s ops) := by
  induction ops with
  | nil => exact fun s _ h => h
  | cons op ops ih =>
    intro s hops h
    simp only [run]
    exact ih _ (fun o ho => hops o (by simp [ho]))
      (step_closeInv s op (hops op (by simp)) h)

/-! ## C4: close-handshake teardown iff both close frames exchanged -/

/-- C4: starting from OPEN, over every sequence of close-handshake
operations (application `close` calls and delivered byte chunks, in any
order), the transport is torn down and the `close` event emitted through the
close-handshake path (`closeSocket` inside `close()`, recorded by
`handshakeClosed`) exactly when both the local close frame has been sent
(`closeFrameSent`) and the remote close frame has been received
(`closeFrameReceived`). -/
theorem close_handshake_teardown_iff (ops : List WsOp)
    (hops : ∀ op ∈ ops, closeHandshakeOp op = true) :
    (run initOpen ops).handshakeClosed
      = ((run initOpen ops).closeFrameSent && (run initOpen ops).closeFrameReceived) := by
  have hinv : CloseInv (run initOpen ops) :=
    run_closeInv ops initOpen hops (by unfold CloseInv initOpen initState; simp)
  obtain ⟨hA, hB, hC, hD, hE⟩ := hinv
  cases hhc : (run initOpen ops).handshakeClosed with
  | true =>
    obtain ⟨h1, h2⟩ := hC hhc
    rw [h1, h2]
    rfl
  | false =>
    cases hcs : (run initOpen ops).closeFrameSent with
    | false => rfl
    | true =>
      cases hcr : (run initOpen ops).closeFrameReceived with
      | false => rfl
      | true => exact absurd (hE hcs hcr) (by simp [hhc])

/-- Witness for C4: the server's close frame (empty payload) arrives on an
OPEN connection; the engine replies, both flags become true, and the
handshake teardown runs. -/
theorem close_handshake_teardown_iff_witness :
    (∀ op ∈ [WsOp.deliver .accepted [0x88, 0]], closeHandshakeOp op = true) ∧
      (run initOpen [WsOp.deliver .accepted [0x88, 0]]).handshakeClosed
        = ((run initOpen [WsOp.deliver .accepted [0x88, 0]]).closeFrameSent &&
            (run initOpen [WsOp.deliver .accepted [0x88, 0]]).closeFrameReceived) :=
  ⟨by decide, close_handshake_teardown_iff [WsOp.deliver .accepted [0x88, 0]] (by decide)⟩

end Tiws
